import Mathlib

/-!
Verification of the PharmaCheck front-end core: the aggregate
interaction check, the medication multi-selector, the autocomplete
trigger, the interaction list and detail views, the per-record
translation flow, and the server-side merge and translation-cache
contracts. Definitions are shallow embeddings of the JavaScript
sources (index.js, the interactions list view, the interaction detail
view) and of the SQL schema; the server-side aggregator and
translation cache are modelled from the specification where their
code is not part of the repository sources.

JavaScript string falsiness is modelled by representing an absent or
undefined string field as the empty string, so that the idiom
a || b becomes: if a is empty then b else a.
-/

namespace PharmaCheck

/-- Model of the JavaScript idiom a || b on strings: the empty string is
falsy, anything else is truthy. -/
def jsOr (a b : String) : String := if a = "" then b else a

/-- Model of the JavaScript String.prototype.toLowerCase call, mapping
the character-level lowercasing over the text. -/
def jsToLower (s : String) : String := ⟨s.data.map Char.toLower⟩

/-- Model of the JavaScript String.prototype.trim call: whitespace is
stripped from both ends of the text. -/
def jsTrim (s : String) : String :=
  ⟨((s.data.dropWhile Char.isWhitespace).reverse.dropWhile
      Char.isWhitespace).reverse⟩

/-- Network requests the front end can issue, one constructor per endpoint
used by the modelled code paths. -/
inductive Request where
  | validateDrugs (drugs : List String)
  | searchConditions (input : String)
  | checkInteractions (drugs : List String) (prescribedDrug : String)
  | autocompleteQuery (kind : String) (q : String)
  | translateReq (professionalDescription : String) (interactionId : Option Nat)
  deriving DecidableEq, Repr

/-- The user-facing validation failures of checkDrugInteraction in
index.js: each constructor carries the offending term or terms the code
puts into the error message. -/
inductive CheckError where
  | drugEmpty
  | conditionEmpty
  | noMedications
  | drugNotFound (drug : String)
  | conditionNotFound (condition : String)
  | medicationsNotFound (meds : List String)
  deriving DecidableEq, Repr

/-- Outcome of one run of checkDrugInteraction: an error shown via
showError, or the successful handoff of the fetched bundle. -/
inductive CheckOutcome where
  | error (e : CheckError)
  | success (drugs : List String) (prescribedDrug : String)
  deriving DecidableEq, Repr

/-- Embedding of checkDrugInteraction (index.js). The two inputs are
read and trimmed; the three client-side validations run first, then the
three server validation calls in order (validate the prescribed drug,
search the condition, validate the medications batch), and only after all
of them pass is the interaction fetch issued. The server is abstracted by
two response functions: validateApi returns the not_found_drugs list of a
validate_drugs call, and searchApi tells whether search_conditions
returned a first element. The second component of the result is the
ordered list of network requests the run issued. -/
def checkDrugInteraction (drugInputRaw conditionInputRaw : String)
    (selectedMedications : List String)
    (validateApi : List String → List String)
    (searchApi : String → Bool) : CheckOutcome × List Request :=
  let drugInput := jsTrim drugInputRaw
  let conditionInput := jsTrim conditionInputRaw
  if drugInput = "" then (.error .drugEmpty, [])
  else if conditionInput = "" then (.error .conditionEmpty, [])
  else if selectedMedications.length = 0 then (.error .noMedications, [])
  else
    let t1 := [Request.validateDrugs [drugInput]]
    let notFoundDrugs := validateApi [drugInput]
    if 0 < notFoundDrugs.length then (.error (.drugNotFound drugInput), t1)
    else
      let t2 := t1 ++ [Request.searchConditions conditionInput]
      if searchApi conditionInput = false then
        (.error (.conditionNotFound conditionInput), t2)
      else
        let t3 := t2 ++ [Request.validateDrugs selectedMedications]
        let notFoundMeds := validateApi selectedMedications
        if 0 < notFoundMeds.length then
          (.error (.medicationsNotFound notFoundMeds), t3)
        else
          (.success selectedMedications drugInput,
            t3 ++ [Request.checkInteractions selectedMedications drugInput])

/-- The duplicate test of addMedication and of the autocomplete filter in
index.js: Array.prototype.find returns the matching element, and the
JavaScript code then tests that element for truthiness, so a found empty
string counts as no match. -/
def truthyFind (meds : List String) (name : String) : Bool :=
  match meds.find? (fun m => jsToLower m == jsToLower name) with
  | some m => m != ""
  | none => false

/-- Outcome of addMedication: rejected because the list is full, rejected
as a duplicate, or appended. -/
inductive AddOutcome where
  | maxReached
  | alreadyAdded (name : String)
  | added
  deriving DecidableEq, Repr

/-- The configured medication cap of index.js. -/
def MAX_MEDICATIONS : Nat := 5

/-- Embedding of addMedication (index.js). Rejections call showError and
return before mutating the list; the function body issues no network
request on any path, which the empty request list records. -/
def addMedication (selectedMedications : List String) (name : String) :
    List String × AddOutcome × List Request :=
  if MAX_MEDICATIONS ≤ selectedMedications.length then
    (selectedMedications, .maxReached, [])
  else if truthyFind selectedMedications name then
    (selectedMedications, .alreadyAdded name, [])
  else
    (selectedMedications ++ [name], .added, [])

/-- Embedding of removeMedication (index.js): keeps the entries that are
not strictly equal to the removed name. -/
def removeMedication (selectedMedications : List String) (name : String) :
    List String :=
  selectedMedications.filter (fun m => m != name)

/-- One row of an autocomplete response; a missing generic_name is the
empty string. -/
structure AutocompleteItem where
  name : String
  generic_name : String := ""
  deriving DecidableEq, Repr

/-- Embedding of fetchAutocomplete (index.js). Queries shorter than two
characters hide the dropdown and return before any fetch. The server is a
response function returning none on a transport error (the catch branch
hides the dropdown). The result is whether the dropdown is shown and the
list of requests issued. -/
def fetchAutocomplete (query : String) (kind : String) (isMultiSelect : Bool)
    (selectedMedications : List String)
    (api : String → String → Option (List AutocompleteItem)) :
    Bool × List Request :=
  if query.length < 2 then (false, [])
  else
    let reqs := [Request.autocompleteQuery kind query]
    match api kind query with
    | none => (false, reqs)
    | some data =>
      if data.length = 0 then (false, reqs)
      else
        let filteredData :=
          if isMultiSelect then
            data.filter (fun item => !(truthyFind selectedMedications item.name))
          else data
        if filteredData.length = 0 then (false, reqs)
        else (true, reqs)

/-- An interaction record as the views consume it: the union of the field
names the JavaScript reads across drug-drug, food and disease records.
An absent field is the empty string (or none for the numeric id),
matching the falsiness tests of the source. -/
structure InteractionRecord where
  drug : String := ""
  interaction : String := ""
  interaction_name : String := ""
  disease_name : String := ""
  name : String := ""
  severity : String := ""
  hazard_level : String := ""
  plausibility : String := ""
  applicable_conditions : String := ""
  professional_description : String := ""
  patient_description : String := ""
  ai_description : String := ""
  interaction_id : Option Nat := none
  deriving DecidableEq, Repr

/-- The observable content of one interaction card produced by
createInteractionCard in the list view: the title and severity shown, the
description text shown, whether the translate button is rendered, whether
the AI-translated label is rendered, and the expanded class. -/
structure Card where
  title : String
  severity : String
  descriptionShown : String
  hasTranslateButton : Bool
  hasAiLabel : Bool
  expanded : Bool
  deriving DecidableEq, Repr

/-- Embedding of createInteractionCard (interactions list view) for
drug-drug records. The severity and title fall back through the same
field chain as the source; the description shown prefers the AI text; the
translate button is rendered exactly when there is no AI text and the
professional description (after its fallback to a placeholder) is
non-empty; every freshly created card carries the expanded class. -/
def createInteractionCard (interaction : InteractionRecord) : Card :=
  let severity := jsOr interaction.severity "Unknown"
  let title := jsOr interaction.drug
    (jsOr interaction.interaction (jsOr interaction.name "Unknown Interaction"))
  let professionalDesc :=
    jsOr interaction.professional_description "No description available"
  let aiDesc := interaction.ai_description
  { title := title
    severity := severity
    descriptionShown := jsOr aiDesc professionalDesc
    hasTranslateButton := aiDesc == "" && professionalDesc != ""
    hasAiLabel := aiDesc != ""
    expanded := true }

/-- Embedding of renderDrugDrugInteractions (interactions list view): the
container is rebuilt from scratch, one card per record. -/
def renderDrugDrugInteractions (interactions : List InteractionRecord) :
    List Card :=
  interactions.map createInteractionCard

/-- The observable state of a translate control: whether it is enabled,
its label, and whether it is displayed. -/
structure ButtonState where
  enabled : Bool
  label : String
  visible : Bool := true
  deriving DecidableEq, Repr

/-- Idle label of the list-view translate button (decorative emoji of the
source omitted). -/
def translateIdleLabel : String := "Translate to Patient-Friendly"

/-- Embedding of translateDescription (interactions list view) for
drug-drug cards, observed at quiescence. The record at the clicked index
is read and the translate request is issued with its professional
description and id; on success the record gains the AI text, the whole
drug-drug list is re-rendered from the records, and the clicked card gets
the expanded class re-added; on failure the DOM is untouched and, after
the two-second timeout of the source, the button is enabled again with
its idle label. An out-of-range index throws on building the request
body, so no request is issued and the failure path runs. -/
def translateDescription (drugDrugInteractions : List InteractionRecord)
    (cards : List Card) (index : Nat) (response : Option String) :
    List InteractionRecord × List Card × ButtonState × List Request :=
  match drugDrugInteractions.get? index with
  | none =>
      (drugDrugInteractions, cards,
        { enabled := true, label := translateIdleLabel }, [])
  | some interaction =>
      let req := Request.translateReq interaction.professional_description
        interaction.interaction_id
      match response with
      | some consumerDescription =>
          let updated := { interaction with
            ai_description := consumerDescription
            patient_description := consumerDescription }
          let newInteractions := drugDrugInteractions.set index updated
          let rendered := renderDrugDrugInteractions newInteractions
          let reExpanded :=
            match rendered.get? index with
            | some c => rendered.set index { c with expanded := true }
            | none => rendered
          (newInteractions, reExpanded,
            { enabled := true, label := translateIdleLabel }, [req])
      | none =>
          (drugDrugInteractions, cards,
            { enabled := true, label := translateIdleLabel }, [req])

/-- The observable content of the interaction detail page: title,
severity badge, the labelled detail sections in order, the AI section
state, and the translate button state. -/
structure DetailsView where
  title : String
  severity : String
  sections : List (String × String)
  aiSectionVisible : Bool
  aiText : String
  translateBtn : ButtonState
  deriving DecidableEq, Repr

/-- Idle label of the detail-view translate button (decorative emoji of
the source omitted). -/
def generateIdleLabel : String := "Generate Patient-Friendly Version"

/-- The risk-assessment text assembled by renderDetails from the hazard
level and plausibility fields. -/
def riskAssessmentText (rec : InteractionRecord) : String :=
  (if rec.hazard_level != "" then "Hazard: " ++ rec.hazard_level else "") ++
  (if rec.plausibility != "" then "Plausibility: " ++ rec.plausibility else "")

/-- Embedding of renderDetails (interaction detail view). Sections are
emitted in source order under the same presence tests; if the record
carries an AI description, showAIDescription fills the AI section with it
and hides the translate button, otherwise the AI section stays hidden and
the button keeps its default visible idle state. -/
def renderDetails (currentInteraction : InteractionRecord) : DetailsView :=
  let severity := jsOr currentInteraction.severity "Unknown"
  let title := jsOr currentInteraction.drug
    (jsOr currentInteraction.interaction_name
      (jsOr currentInteraction.disease_name
        (jsOr currentInteraction.name "Interaction")))
  let sections :=
    (if currentInteraction.hazard_level != "" ||
        currentInteraction.plausibility != "" then
      [("Risk Assessment", riskAssessmentText currentInteraction)] else []) ++
    (if currentInteraction.applicable_conditions != "" then
      [("Applicable Conditions", currentInteraction.applicable_conditions)]
     else []) ++
    (if currentInteraction.professional_description != "" then
      [("Professional Description",
        currentInteraction.professional_description)] else []) ++
    (if currentInteraction.patient_description != "" &&
        currentInteraction.patient_description !=
          currentInteraction.professional_description then
      [("Patient Description", currentInteraction.patient_description)]
     else [])
  if currentInteraction.ai_description != "" then
    { title := title, severity := severity, sections := sections
      aiSectionVisible := true
      aiText := currentInteraction.ai_description
      translateBtn :=
        { enabled := true, label := generateIdleLabel, visible := false } }
  else
    { title := title, severity := severity, sections := sections
      aiSectionVisible := false
      aiText := ""
      translateBtn :=
        { enabled := true, label := generateIdleLabel, visible := true } }

/-- Embedding of requestTranslation (interaction detail view). The guard
returns before any fetch when the record has no professional description;
otherwise the translate request is issued, and on success the record
gains the AI text, the AI section shows it and the button is hidden,
while on failure the record and the sections are untouched and the button
returns to its enabled idle state. -/
def requestTranslation (currentInteraction : InteractionRecord)
    (view : DetailsView) (response : Option String) :
    InteractionRecord × DetailsView × List Request :=
  if currentInteraction.professional_description = "" then
    (currentInteraction, view, [])
  else
    let req := Request.translateReq
      currentInteraction.professional_description
      currentInteraction.interaction_id
    match response with
    | some consumerDescription =>
        ({ currentInteraction with ai_description := consumerDescription },
         { view with
            aiSectionVisible := true
            aiText := consumerDescription
            translateBtn :=
              { enabled := false, label := "Translating...", visible := false } },
         [req])
    | none =>
        (currentInteraction,
         { view with translateBtn :=
            { enabled := true, label := generateIdleLabel, visible := true } },
         [req])

/-- Result of one call to the server-side translation operation. -/
inductive TranslateResult where
  | ok (text : String)
  | translationFailed
  deriving DecidableEq, Repr

/-- Modelled from the spec: the server-side Translation Cache operation
behind the translate_description endpoint is not part of the repository
sources (only its client callers are). Per the specification, if the
record already carries a non-empty AI description it is returned with no
external call; otherwise the external paraphraser is invoked once, a
success is persisted onto the record, and a failure leaves the record
without an AI description. The third component counts external
paraphraser calls performed. -/
def translate (rec : InteractionRecord)
    (paraphraser : String → Option String) :
    TranslateResult × InteractionRecord × Nat :=
  if rec.ai_description != "" then (.ok rec.ai_description, rec, 0)
  else
    match paraphraser rec.professional_description with
    | some text => (.ok text, { rec with ai_description := text }, 1)
    | none => (.translationFailed, rec, 1)

/-- One row of the Drug_Interaction junction table of the schema: a drug,
an interaction record, and the counterpart display name. -/
structure DrugInteractionLink where
  drug_id : Nat
  interaction_id : Nat
  interacting_drug_name : String
  deriving DecidableEq, Repr

/-- The drug-drug part of the interaction store: the junction rows. -/
structure Repository where
  links : List DrugInteractionLink
  deriving DecidableEq, Repr

/-- The composite primary key of a junction row. -/
def linkKey (l : DrugInteractionLink) : Nat × Nat :=
  (l.drug_id, l.interaction_id)

/-- The schema constraint PRIMARY KEY (drug_id, interaction_id) of the
Drug_Interaction table: no two junction rows share both ids. -/
def Repository.WellFormed (repo : Repository) : Prop :=
  (repo.links.map linkKey).Nodup

/-- The drug-drug interactions associated with one drug: the interaction
id and counterpart name of every junction row of that drug. -/
def interactionsFor (repo : Repository) (drugId : Nat) :
    List (Nat × String) :=
  (repo.links.filter (fun l => l.drug_id == drugId)).map
    (fun l => (l.interaction_id, l.interacting_drug_name))

/-- Modelled from the spec: the server-side Interaction Aggregator merge
step behind the check_drug_interactions endpoint is not part of the
repository sources (only its client caller is). Per the specification,
the interaction sets of the validated drugs are fetched in order and
merged with drug-drug interactions deduplicated by interaction identity:
an entry whose interaction id was already emitted under an earlier drug
is dropped. The first argument accumulates the ids already emitted. -/
def mergeAux (repo : Repository) : List Nat → List Nat → List (Nat × String)
  | _, [] => []
  | seen, d :: ds =>
      let fresh := (interactionsFor repo d).filter
        (fun e => !(seen.contains e.1))
      fresh ++ mergeAux repo (seen ++ fresh.map Prod.fst) ds

/-- Modelled from the spec: the merged drug-drug section of the bundle
returned by the aggregate check, deduplicated by interaction identity
across the listed drugs. -/
def mergeDrugDrug (repo : Repository) (drugIds : List Nat) :
    List (Nat × String) :=
  mergeAux repo [] drugIds

/-- The invariant of the selected-medications list: at most five entries
and no two entries equal up to case. -/
def MedInvariant (xs : List String) : Prop :=
  xs.length ≤ 5 ∧ (xs.map jsToLower).Nodup

/-! Helper lemmas shared by several claim proofs. -/

/-- Lowercasing is empty only on the empty string. -/
theorem jsToLower_eq_empty {s : String} (h : jsToLower s = "") : s = "" := by
  unfold jsToLower at h
  have h1 : s.data.map Char.toLower = [] := by
    simpa [String.ext_iff] using h
  have h2 : s.data = [] := by simpa using h1
  cases s
  simpa [String.ext_iff] using h2

/-- Claim C3: for every interaction record that already carries a
non-empty AI description, the server-side translate performs zero
external paraphraser calls on a first and on a repeated invocation and
returns the same cached text both times, and the rendered views show that
text and offer no translate action: the list card shows the AI text with
no translate button, and the detail view shows the AI section with the
text and hides its translate button. -/
theorem translate_idempotent_cached (rec : InteractionRecord)
    (paraphraser : String → Option String)
    (h : rec.ai_description ≠ "") :
    (translate rec paraphraser).2.2 = 0 ∧
    (translate (translate rec paraphraser).2.1 paraphraser).2.2 = 0 ∧
    (translate rec paraphraser).1 = .ok rec.ai_description ∧
    (translate (translate rec paraphraser).2.1 paraphraser).1 =
      (translate rec paraphraser).1 ∧
    (createInteractionCard rec).descriptionShown = rec.ai_description ∧
    (createInteractionCard rec).hasTranslateButton = false ∧
    (renderDetails rec).aiSectionVisible = true ∧
    (renderDetails rec).aiText = rec.ai_description ∧
    (renderDetails rec).translateBtn.visible = false := by
  simp [translate, createInteractionCard, renderDetails, jsOr, h]

/-- Witness for C3 at a concrete cached record. -/
theorem translate_idempotent_cached_witness :
    (translate { ai_description := "plain" } (fun _ => none)).2.2 = 0 ∧
    (translate (translate { ai_description := "plain" } (fun _ => none)).2.1
      (fun _ => none)).2.2 = 0 ∧
    (translate { ai_description := "plain" } (fun _ => none)).1 =
      .ok (InteractionRecord.ai_description { ai_description := "plain" }) ∧
    (translate (translate { ai_description := "plain" } (fun _ => none)).2.1
      (fun _ => none)).1 =
      (translate { ai_description := "plain" } (fun _ => none)).1 ∧
    (createInteractionCard { ai_description := "plain" }).descriptionShown =
      InteractionRecord.ai_description { ai_description := "plain" } ∧
    (createInteractionCard { ai_description := "plain" }).hasTranslateButton
      = false ∧
    (renderDetails { ai_description := "plain" }).aiSectionVisible = true ∧
    (renderDetails { ai_description := "plain" }).aiText =
      InteractionRecord.ai_description { ai_description := "plain" } ∧
    (renderDetails { ai_description := "plain" }).translateBtn.visible =
      false :=
  translate_idempotent_cached { ai_description := "plain" } (fun _ => none)
    (by decide)

/-- Claim C5: adding to a four-entry medication list with a fresh name
succeeds and yields exactly five entries, while an add attempt on a
five-entry list is rejected with the list unchanged, the maximum-reached
error shown, and no network request issued. -/
theorem addMedication_boundary (xs ys : List String) (name nameB : String)
    (hlen : xs.length = 4)
    (hfresh : ∀ m ∈ xs, jsToLower m ≠ jsToLower name)
    (hys : 5 ≤ ys.length) :
    (addMedication xs name).1.length = 5 ∧
    (addMedication xs name).2.1 = .added ∧
    addMedication ys nameB = (ys, .maxReached, []) := by
  have hfind : xs.find? (fun m => jsToLower m == jsToLower name) = none := by
    rw [List.find?_eq_none]
    intro m hm
    simpa using hfresh m hm
  have htf : truthyFind xs name = false := by
    simp [truthyFind, hfind]
  have hnot : ¬ MAX_MEDICATIONS ≤ xs.length := by
    simp [MAX_MEDICATIONS, hlen]
  refine ⟨?_, ?_, ?_⟩
  · simp [addMedication, MAX_MEDICATIONS, htf, hlen]
  · simp [addMedication, MAX_MEDICATIONS, htf, hlen]
  · simp [addMedication, MAX_MEDICATIONS, hys]

/-- Witness for C5 at a concrete four-entry and five-entry list. -/
theorem addMedication_boundary_witness :
    (addMedication ["Lisinopril", "Metformin", "Atorvastatin", "Omeprazole"]
      "Aspirin").1.length = 5 ∧
    (addMedication ["Lisinopril", "Metformin", "Atorvastatin", "Omeprazole"]
      "Aspirin").2.1 = .added ∧
    addMedication
      ["Lisinopril", "Metformin", "Atorvastatin", "Omeprazole", "Aspirin"]
      "Warfarin" =
      (["Lisinopril", "Metformin", "Atorvastatin", "Omeprazole", "Aspirin"],
        .maxReached, []) :=
  addMedication_boundary
    ["Lisinopril", "Metformin", "Atorvastatin", "Omeprazole"]
    ["Lisinopril", "Metformin", "Atorvastatin", "Omeprazole", "Aspirin"]
    "Aspirin" "Warfarin" (by decide) (by decide) (by decide)

/-- Claim C6: when the external call of a translate attempt fails, the
list view leaves the records and the rendered cards unchanged (so the
record still has no AI description and the professional text on display
is untouched) and the translate button ends enabled with its idle label;
the detail view likewise leaves the record, the sections and the AI
section untouched and returns its button to the enabled idle state. -/
theorem translate_failure_preserves_state
    (interactions : List InteractionRecord) (cards : List Card)
    (index : Nat) (rec : InteractionRecord) (view : DetailsView)
    (hpd : rec.professional_description ≠ "") :
    (translateDescription interactions cards index none).1 = interactions ∧
    (translateDescription interactions cards index none).2.1 = cards ∧
    (translateDescription interactions cards index none).2.2.1 =
      { enabled := true, label := translateIdleLabel, visible := true } ∧
    (requestTranslation rec view none).1 = rec ∧
    (requestTranslation rec view none).2.1.sections = view.sections ∧
    (requestTranslation rec view none).2.1.aiSectionVisible =
      view.aiSectionVisible ∧
    (requestTranslation rec view none).2.1.aiText = view.aiText ∧
    (requestTranslation rec view none).2.1.translateBtn =
      { enabled := true, label := generateIdleLabel, visible := true } := by
  refine ⟨?_, ?_, ?_, ?_, ?_, ?_, ?_, ?_⟩ <;>
    first
      | (cases h : interactions[index]? <;>
          simp [translateDescription, h])
      | simp [requestTranslation, hpd]

/-- Witness for C6 at a concrete record, card list and view. -/
theorem translate_failure_preserves_state_witness :
    (translateDescription [{ professional_description := "text" }] [] 0
      none).1 = [{ professional_description := "text" }] ∧
    (translateDescription [{ professional_description := "text" }] [] 0
      none).2.1 = [] ∧
    (translateDescription [{ professional_description := "text" }] [] 0
      none).2.2.1 =
      { enabled := true, label := translateIdleLabel, visible := true } ∧
    (requestTranslation { professional_description := "text" }
      (renderDetails { professional_description := "text" }) none).1 =
      { professional_description := "text" } ∧
    (requestTranslation { professional_description := "text" }
      (renderDetails { professional_description := "text" }) none).2.1.sections
      = (renderDetails { professional_description := "text" }).sections ∧
    (requestTranslation { professional_description := "text" }
      (renderDetails { professional_description := "text" })
      none).2.1.aiSectionVisible =
      (renderDetails { professional_description := "text" }).aiSectionVisible ∧
    (requestTranslation { professional_description := "text" }
      (renderDetails { professional_description := "text" }) none).2.1.aiText
      = (renderDetails { professional_description := "text" }).aiText ∧
    (requestTranslation { professional_description := "text" }
      (renderDetails { professional_description := "text" })
      none).2.1.translateBtn =
      { enabled := true, label := generateIdleLabel, visible := true } :=
  translate_failure_preserves_state [{ professional_description := "text" }]
    [] 0 { professional_description := "text" }
    (renderDetails { professional_description := "text" }) (by decide)

/-- Claim C8: a run of the aggregate check with zero selected medications
issues no network request at all, and when the two text inputs are
non-empty after trimming it surfaces the error demanding at least one
medication. -/
theorem checkDrugInteraction_zero_medications (d c dAny cAny : String)
    (validateApi : List String → List String) (searchApi : String → Bool)
    (hd : jsTrim d ≠ "") (hc : jsTrim c ≠ "") :
    checkDrugInteraction d c [] validateApi searchApi =
      (.error .noMedications, []) ∧
    (checkDrugInteraction dAny cAny [] validateApi searchApi).2 = [] := by
  constructor
  · simp [checkDrugInteraction, hd, hc]
  · unfold checkDrugInteraction
    by_cases h1 : jsTrim dAny = "" <;> by_cases h2 : jsTrim cAny = "" <;>
      simp [h1, h2]

/-- Witness for C8 at concrete inputs. -/
theorem checkDrugInteraction_zero_medications_witness :
    checkDrugInteraction "Aspirin" "Hypertension" [] (fun _ => [])
      (fun _ => true) = (.error .noMedications, []) ∧
    (checkDrugInteraction "" "" [] (fun _ => []) (fun _ => true)).2 = [] :=
  checkDrugInteraction_zero_medications "Aspirin" "Hypertension" "" ""
    (fun _ => []) (fun _ => true) (by decide) (by decide)

/-- Claim C9: an autocomplete query of fewer than two characters issues
no request and leaves the dropdown hidden, while a query of two or more
characters issues exactly the one autocomplete request. -/
theorem fetchAutocomplete_min_query (query qlong kind : String)
    (isMulti : Bool) (meds : List String)
    (api : String → String → Option (List AutocompleteItem))
    (hshort : query.length < 2) (hlong : 2 ≤ qlong.length) :
    fetchAutocomplete query kind isMulti meds api = (false, []) ∧
    (fetchAutocomplete qlong kind isMulti meds api).2 =
      [Request.autocompleteQuery kind qlong] := by
  have h2 : ¬ qlong.length < 2 := by omega
  constructor
  · simp [fetchAutocomplete, hshort]
  · cases hapi : api kind qlong with
    | none => simp [fetchAutocomplete, h2, hapi]
    | some data =>
        simp only [fetchAutocomplete, h2, hapi, if_false]
        split_ifs <;> rfl

/-- Witness for C9 at a one-character and a two-character query. -/
theorem fetchAutocomplete_min_query_witness :
    fetchAutocomplete "a" "drugs" false [] (fun _ _ => some []) =
      (false, []) ∧
    (fetchAutocomplete "ab" "drugs" false [] (fun _ _ => some [])).2 =
      [Request.autocompleteQuery "drugs" "ab"] :=
  fetchAutocomplete_min_query "a" "ab" "drugs" false [] (fun _ _ => some [])
    (by decide) (by decide)


/-- Claim C1: in every run of the aggregate check, an interaction fetch
appears in the request trace only when all three validations passed, and
then the trace is exactly the prescribed-drug validation, the condition
search, the medications validation and the fetch, in that order; and
every validation failure yields a run whose trace contains no interaction
fetch and whose error carries the specific offending term or terms. -/
theorem checkDrugInteraction_validates_before_fetch
    (d c : String) (meds ds : List String) (p : String)
    (validateApi : List String → List String) (searchApi : String → Bool)
    (e : CheckError) :
    (Request.checkInteractions ds p ∈
        (checkDrugInteraction d c meds validateApi searchApi).2 →
      (checkDrugInteraction d c meds validateApi searchApi).2 =
        [Request.validateDrugs [jsTrim d],
         Request.searchConditions (jsTrim c),
         Request.validateDrugs meds,
         Request.checkInteractions meds (jsTrim d)] ∧
      validateApi [jsTrim d] = [] ∧
      searchApi (jsTrim c) = true ∧
      validateApi meds = []) ∧
    ((checkDrugInteraction d c meds validateApi searchApi).1 = .error e →
      Request.checkInteractions ds p ∉
        (checkDrugInteraction d c meds validateApi searchApi).2 ∧
      ((e = .drugEmpty ∧ jsTrim d = "") ∨
       (e = .conditionEmpty ∧ jsTrim c = "") ∨
       (e = .noMedications ∧ meds.length = 0) ∨
       (e = .drugNotFound (jsTrim d) ∧ validateApi [jsTrim d] ≠ []) ∨
       (e = .conditionNotFound (jsTrim c) ∧ searchApi (jsTrim c) = false) ∨
       (e = .medicationsNotFound (validateApi meds) ∧
          validateApi meds ≠ []))) := by
  unfold checkDrugInteraction
  by_cases h1 : jsTrim d = "" <;> by_cases h2 : jsTrim c = "" <;>
    by_cases h3 : meds.length = 0 <;>
    by_cases h4 : 0 < (validateApi [jsTrim d]).length <;>
    by_cases h5 : searchApi (jsTrim c) = false <;>
    by_cases h6 : 0 < (validateApi meds).length <;>
    simp_all [List.length_pos, List.length_eq_zero]

/-- Witness for C1: a run in which every validation passes fetches after
the three ordered validation calls. -/
theorem checkDrugInteraction_validates_before_fetch_witness :
    (checkDrugInteraction "Aspirin" "Hypertension" ["Warfarin"]
        (fun _ => []) (fun _ => true)).2 =
      [Request.validateDrugs [jsTrim "Aspirin"],
       Request.searchConditions (jsTrim "Hypertension"),
       Request.validateDrugs ["Warfarin"],
       Request.checkInteractions ["Warfarin"] (jsTrim "Aspirin")] ∧
    ([] : List String) = [] ∧ true = true ∧ ([] : List String) = [] :=
  (checkDrugInteraction_validates_before_fetch "Aspirin" "Hypertension"
    ["Warfarin"] ["Warfarin"] "Aspirin" (fun _ => []) (fun _ => true)
    .drugEmpty).1 (by decide)


/-- Claim C4 counterexample: a drug-drug record whose professional
description is empty and that has no AI description is rendered by the
list view with a translate button (the description shown falls back to a
placeholder), and clicking that button issues a translate request whose
professional-description input is empty, so an empty-input call does
reach the translate_description endpoint from the list view. -/
theorem translate_empty_description_counterexample :
    (createInteractionCard { interaction_id := some 7 }).hasTranslateButton
      = true ∧
    (translateDescription [{ interaction_id := some 7 }] [] 0
      (some "text")).2.2.2 = [Request.translateReq "" (some 7)] := by
  decide

/-- Claim C4 as amended: the detail view rejects a translate attempt on a
record with empty professional description before any request is issued;
the list view renders a translate button exactly when the record has no
AI description, regardless of the professional description being empty,
and clicking it always issues the translate request with whatever
professional description the record holds, including the empty one. -/
theorem translate_empty_description_guard (rec r : InteractionRecord)
    (view : DetailsView) (response : Option String)
    (interactions : List InteractionRecord) (cards : List Card)
    (index : Nat)
    (hempty : rec.professional_description = "")
    (hidx : interactions[index]? = some r) :
    requestTranslation rec view response = (rec, view, []) ∧
    (createInteractionCard r).hasTranslateButton =
      (r.ai_description == "") ∧
    (translateDescription interactions cards index response).2.2.2 =
      [Request.translateReq r.professional_description r.interaction_id] := by
  refine ⟨?_, ?_, ?_⟩
  · simp [requestTranslation, hempty]
  · by_cases h : r.professional_description = "" <;>
      simp [createInteractionCard, jsOr, h]
  · cases response <;>
      simp [translateDescription, List.get?_eq_getElem?, hidx]

/-- Witness for the amended C4 at concrete records. -/
theorem translate_empty_description_guard_witness :
    requestTranslation { name := "X" } (renderDetails { name := "X" }) none =
      ({ name := "X" }, renderDetails { name := "X" }, []) ∧
    (createInteractionCard { interaction_id := some 7 }).hasTranslateButton =
      (InteractionRecord.ai_description { interaction_id := some 7 } == "") ∧
    (translateDescription [{ interaction_id := some 7 }] [] 0 none).2.2.2 =
      [Request.translateReq
        (InteractionRecord.professional_description
          { interaction_id := some 7 })
        (InteractionRecord.interaction_id { interaction_id := some 7 })] :=
  translate_empty_description_guard { name := "X" } { interaction_id := some 7 }
    (renderDetails { name := "X" }) none [{ interaction_id := some 7 }] [] 0
    rfl rfl

/-- Claim C7 counterexample: with two drug-drug cards of which the second
was collapsed by the user, a successful translate of the first re-renders
the list and the second card comes back expanded, so a card collapsed
before the translation is not collapsed after it. -/
theorem translate_rerender_collapse_counterexample :
    ([createInteractionCard
        { professional_description := "A", interaction_id := some 1 },
      { title := "Unknown Interaction", severity := "Unknown",
        descriptionShown := "B", hasTranslateButton := true,
        hasAiLabel := false, expanded := false }].map Card.expanded
      = [true, false]) ∧
    ((translateDescription
        [{ professional_description := "A", interaction_id := some 1 },
         { professional_description := "B" }]
        [createInteractionCard
            { professional_description := "A", interaction_id := some 1 },
         { title := "Unknown Interaction", severity := "Unknown",
           descriptionShown := "B", hasTranslateButton := true,
           hasAiLabel := false, expanded := false }]
        0 (some "Simple")).2.1.map Card.expanded) = [true, true] := by
  decide

/-- Setting one card of an all-expanded card list to an expanded copy
keeps the list all-expanded. -/
theorem all_expanded_set (cs : List Card) (i : Nat) (c : Card)
    (h : cs.all (fun card => card.expanded) = true) :
    (cs.set i { c with expanded := true }).all
      (fun card => card.expanded) = true := by
  rw [List.all_eq_true] at h ⊢
  intro x hx
  rcases List.mem_or_eq_of_mem_set hx with h1 | h1
  · exact h x h1
  · subst h1; rfl

/-- Claim C7 as amended: a successful translate of the card at a valid
index updates that record in place with the AI text and re-renders the
whole drug-drug list from scratch, after which every card in the list is
expanded (the translated card is explicitly re-expanded and every other
card is reset to the expanded state of a fresh render), so prior
collapsed states of other cards are not preserved. -/
theorem translate_success_rerenders_expanded
    (interactions : List InteractionRecord) (cards : List Card)
    (index : Nat) (text : String) (rec : InteractionRecord)
    (hidx : interactions[index]? = some rec) :
    (translateDescription interactions cards index (some text)).1 =
      interactions.set index
        { rec with ai_description := text, patient_description := text } ∧
    ((translateDescription interactions cards index (some text)).2.1.all
      (fun card => card.expanded)) = true := by
  have hall : ∀ (v : List InteractionRecord),
      ((renderDrugDrugInteractions v).all fun card => card.expanded)
        = true := by
    intro v
    rw [renderDrugDrugInteractions, List.all_eq_true]
    intro x hx
    obtain ⟨a, ha, rfl⟩ := List.mem_map.mp hx
    rfl
  obtain ⟨u, hu⟩ : ∃ u, interactions.set index
      { rec with ai_description := text, patient_description := text } = u :=
    ⟨_, rfl⟩
  constructor
  · simp [translateDescription, List.get?_eq_getElem?, hidx]
  · simp only [translateDescription, List.get?_eq_getElem?, hidx, hu]
    cases hr : (renderDrugDrugInteractions u)[index]? with
    | none => simpa [hr] using hall u
    | some c => simpa [hr] using all_expanded_set _ index c (hall u)

/-- Witness for the amended C7 at a concrete one-card list. -/
theorem translate_success_rerenders_expanded_witness :
    (translateDescription [{ professional_description := "A" }] [] 0
      (some "t")).1 =
      [({ professional_description := "A" } : InteractionRecord)].set 0
        { ({ professional_description := "A" } : InteractionRecord) with
          ai_description := "t", patient_description := "t" } ∧
    ((translateDescription [{ professional_description := "A" }] [] 0
      (some "t")).2.1.all (fun card => card.expanded)) = true :=
  translate_success_rerenders_expanded
    [{ professional_description := "A" }] [] 0 "t"
    { professional_description := "A" } rfl

/-- Claim C10 counterexample: the duplicate test of addMedication checks
the found array element for truthiness, so the empty string slips past
it; adding the empty string to a singleton list already holding the empty
string appends it and yields a list with two case-insensitively equal
entries, violating the no-duplicates invariant. -/
theorem addMedication_empty_duplicate_counterexample :
    (addMedication [""] "").1 = ["", ""] ∧
    ¬ (((addMedication [""] "").1.map jsToLower).Nodup) := by decide

/-- For a non-empty name, the truthiness-based duplicate test of the
source agrees with existence of a case-insensitive duplicate. -/
theorem truthyFind_iff (xs : List String) (name : String)
    (hname : name ≠ "") :
    truthyFind xs name = true ↔
      ∃ m ∈ xs, jsToLower m = jsToLower name := by
  unfold truthyFind
  cases hf : xs.find? (fun m => jsToLower m == jsToLower name) with
  | none =>
      rw [List.find?_eq_none] at hf
      simp only [Bool.false_eq_true, false_iff]
      push_neg
      intro m hm
      simpa using hf m hm
  | some m =>
      have hp : jsToLower m = jsToLower name := by
        simpa using List.find?_some hf
      have hmem : m ∈ xs := List.mem_of_find?_eq_some hf
      constructor
      · intro _
        exact ⟨m, hmem, hp⟩
      · intro _
        have hm : m ≠ "" := by
          intro hcontra
          apply hname
          apply jsToLower_eq_empty
          rw [← hp, hcontra]
          rfl
        simpa using hm

/-- Claim C10 as amended: for every non-empty name, the selected list
invariant (at most five entries, no two case-insensitively equal entries)
is preserved by addMedication and by removeMedication, and addMedication
leaves the list unchanged when the list is full or a case-insensitive
duplicate of the name is present; the empty string is excluded because
the truthiness-based duplicate test of the source treats a found empty
string as no match, so adding the empty string twice creates a
duplicate. -/
theorem medications_invariant (xs : List String) (name : String)
    (hinv : MedInvariant xs) (hname : name ≠ "") :
    MedInvariant (addMedication xs name).1 ∧
    MedInvariant (removeMedication xs name) ∧
    (5 ≤ xs.length → (addMedication xs name).1 = xs) ∧
    ((∃ m ∈ xs, jsToLower m = jsToLower name) →
      (addMedication xs name).1 = xs) := by
  obtain ⟨hlen, hnd⟩ := hinv
  have hrem : MedInvariant (removeMedication xs name) := by
    constructor
    · exact le_trans (List.length_filter_le _ _) hlen
    · exact List.Nodup.sublist
        (List.Sublist.map jsToLower (List.filter_sublist xs)) hnd
  by_cases hmax : MAX_MEDICATIONS ≤ xs.length
  · have hadd : (addMedication xs name).1 = xs := by
      simp [addMedication, hmax]
    refine ⟨?_, hrem, ?_, ?_⟩
    · rw [hadd]; exact ⟨hlen, hnd⟩
    · intro _; exact hadd
    · intro _; exact hadd
  · by_cases htf : truthyFind xs name = true
    · have hadd : (addMedication xs name).1 = xs := by
        simp [addMedication, hmax, htf]
      refine ⟨?_, hrem, ?_, ?_⟩
      · rw [hadd]; exact ⟨hlen, hnd⟩
      · intro h5; exact absurd h5 (by simpa [MAX_MEDICATIONS] using hmax)
      · intro _; exact hadd
    · have hadd : (addMedication xs name).1 = xs ++ [name] := by
        simp [addMedication, hmax, htf]
      have hnotin : jsToLower name ∉ xs.map jsToLower := by
        intro hmem
        apply htf
        rw [truthyFind_iff xs name hname]
        obtain ⟨m, hm, he⟩ := List.mem_map.mp hmem
        exact ⟨m, hm, he⟩
      refine ⟨?_, hrem, ?_, ?_⟩
      · constructor
        · rw [hadd]
          have h4 : xs.length < 5 := by simpa [MAX_MEDICATIONS] using hmax
          simp only [List.length_append, List.length_singleton]
          omega
        · rw [hadd, List.map_append]
          rw [List.nodup_append]
          refine ⟨hnd, List.nodup_singleton _, ?_⟩
          intro a ha hb
          simp only [List.map_cons, List.map_nil, List.mem_singleton] at hb
          subst hb
          exact hnotin ha
      · intro h5; exact absurd h5 (by simpa [MAX_MEDICATIONS] using hmax)
      · intro hex
        exfalso
        apply htf
        rw [truthyFind_iff xs name hname]
        exact hex

/-- Witness for the amended C10 at a concrete list and name. -/
theorem medications_invariant_witness :
    MedInvariant (addMedication ["Aspirin"] "Warfarin").1 :=
  (medications_invariant ["Aspirin"] "Warfarin" ⟨by decide, by decide⟩
    (by decide)).1

/-- Under the junction-table primary key, the interaction ids associated
with one drug are pairwise distinct. -/
theorem interactionsFor_ids_nodup (repo : Repository)
    (hwf : repo.WellFormed) (d : Nat) :
    ((interactionsFor repo d).map Prod.fst).Nodup := by
  unfold interactionsFor
  rw [List.map_map]
  have hsub : ((repo.links.filter (fun l => l.drug_id == d)).map
      linkKey).Nodup :=
    List.Nodup.sublist (List.Sublist.map linkKey (List.filter_sublist _)) hwf
  have heq : (repo.links.filter (fun l => l.drug_id == d)).map linkKey =
      ((repo.links.filter (fun l => l.drug_id == d)).map
        (fun l => l.interaction_id)).map (fun i => (d, i)) := by
    rw [List.map_map]
    apply List.map_congr_left
    intro l hl
    have hd : l.drug_id = d := by
      have h1 := List.of_mem_filter hl
      simpa using h1
    simp [linkKey, Function.comp, hd]
  rw [heq] at hsub
  have hn := List.Nodup.of_map _ hsub
  simpa [Function.comp] using hn

/-- An interaction id occurs in the merged bundle exactly when it is not
among the already-seen ids and some listed drug carries it. -/
theorem mergeAux_ids_mem (repo : Repository) :
    ∀ (ds seen : List Nat) (i : Nat),
      i ∈ (mergeAux repo seen ds).map Prod.fst ↔
        (i ∉ seen ∧ ∃ d ∈ ds, i ∈ (interactionsFor repo d).map Prod.fst) := by
  intro ds
  induction ds with
  | nil =>
      intro seen i
      simp [mergeAux]
  | cons d ds ih =>
      intro seen i
      have hfresh : ∀ (s : List Nat) (j : Nat),
          j ∈ (((interactionsFor repo d).filter
            (fun e => !(s.contains e.1))).map Prod.fst) ↔
          (j ∈ (interactionsFor repo d).map Prod.fst ∧ j ∉ s) := by
        intro s j
        constructor
        · intro hj
          obtain ⟨e, hef, rfl⟩ := List.mem_map.mp hj
          have h1 := List.of_mem_filter hef
          have h2 := List.mem_of_mem_filter hef
          exact ⟨List.mem_map.mpr ⟨e, h2, rfl⟩, by simpa using h1⟩
        · rintro ⟨hj, hns⟩
          obtain ⟨e, he, rfl⟩ := List.mem_map.mp hj
          refine List.mem_map.mpr ⟨e, List.mem_filter.mpr ⟨he, ?_⟩, rfl⟩
          simpa using hns
      simp only [mergeAux, List.map_append, List.mem_append, hfresh, ih,
        List.exists_mem_cons_iff]
      tauto

/-- The merged bundle lists pairwise distinct interaction ids. -/
theorem mergeAux_ids_nodup (repo : Repository) (hwf : repo.WellFormed) :
    ∀ (ds seen : List Nat),
      ((mergeAux repo seen ds).map Prod.fst).Nodup := by
  intro ds
  induction ds with
  | nil => intro seen; simp [mergeAux]
  | cons d ds ih =>
      intro seen
      simp only [mergeAux, List.map_append]
      rw [List.nodup_append]
      refine ⟨?_, ih _, ?_⟩
      · exact List.Nodup.sublist
          (List.Sublist.map _ (List.filter_sublist _))
          (interactionsFor_ids_nodup repo hwf d)
      · intro a ha hb
        rw [mergeAux_ids_mem] at hb
        exact hb.1 (List.mem_append.mpr (Or.inr ha))

/-- Claim C2: when two drugs of the checked list share one drug-drug
interaction record (one junction row each, same interaction id, under the
junction-table primary key), the merged bundle of the aggregate check
contains exactly one entry for that interaction: it is listed under the
first of the two drugs and not re-listed under the other. -/
theorem mergeDrugDrug_dedup (repo : Repository) (drugIds : List Nat)
    (i a b : Nat) (la lb : DrugInteractionLink)
    (hwf : repo.WellFormed)
    (hla : la ∈ repo.links) (hlb : lb ∈ repo.links)
    (hda : la.drug_id = a) (hdb : lb.drug_id = b)
    (hia : la.interaction_id = i) (hib : lb.interaction_id = i)
    (hamem : a ∈ drugIds) (hbmem : b ∈ drugIds) :
    ((mergeDrugDrug repo drugIds).map Prod.fst).count i = 1 := by
  apply List.count_eq_one_of_mem
  · exact mergeAux_ids_nodup repo hwf drugIds []
  · unfold mergeDrugDrug
    rw [mergeAux_ids_mem]
    refine ⟨by simp, a, hamem, ?_⟩
    unfold interactionsFor
    rw [List.map_map]
    refine List.mem_map.mpr ⟨la, List.mem_filter.mpr ⟨hla, ?_⟩, ?_⟩
    · simp [hda]
    · simp [Function.comp, hia]

/-- Witness for C2: two drugs sharing interaction 10 yield exactly one
merged entry for it. -/
theorem mergeDrugDrug_dedup_witness :
    ((mergeDrugDrug
        { links := [{ drug_id := 1, interaction_id := 10,
                      interacting_drug_name := "Warfarin" },
                    { drug_id := 2, interaction_id := 10,
                      interacting_drug_name := "Aspirin" }] }
        [1, 2]).map Prod.fst).count 10 = 1 :=
  mergeDrugDrug_dedup _ [1, 2] 10 1 2
    { drug_id := 1, interaction_id := 10, interacting_drug_name := "Warfarin" }
    { drug_id := 2, interaction_id := 10, interacting_drug_name := "Aspirin" }
    (by unfold Repository.WellFormed; decide) (by decide) (by decide)
    rfl rfl rfl rfl (by decide) (by decide)

end PharmaCheck
